import Mathlib

/-!
Verification of the Weather/Soil/Geocode proxy (netlify/functions/api.js).

The development shallowly embeds the serverless function: the four Express
route handlers (`/soil`, `/rain-history`, `/geocode`, `/weather`) are modelled
as pure functions from the request's query parameters and the outcome of the
outbound fetch to the response they write through the Express `res` interface
(`res.status(..).json(..)`), and the exported Netlify adapter
(`exports.handler`) is modelled as a function from the invocation event to an
optional response envelope.  The adapter is parametric in the outcome of
`app._router.handle`; the program's actual dispatch (`appRouterHandle`)
rejects every routed request with a middleware `TypeError` before any route
handler runs, because the adapter's mock `res` implements none of the header
methods Express's own middleware calls.  The envelope is `none` only for a
dispatch outcome no program path produces — a response recorded with no
error reaching `reject` — since the awaited promise's `resolve` is never
invoked.

JavaScript numbers are modelled as rationals (`ℚ`), with `Option ℚ` where a
computation can produce `NaN`.  `Math.sin` is kept abstract: every statement
about the mock-soil computation is proved for an arbitrary `sin : ℚ → ℚ`,
which is sound because only `Math.abs` of the product is ever used.
-/

namespace WeatherProxy

/-- JSON values, as produced and consumed by the handlers.  Numbers are
rationals; `null` covers both JSON null and a serialized `NaN`. -/
inductive Json : Type where
  | null : Json
  | bool (b : Bool) : Json
  | num (q : ℚ) : Json
  | str (s : String) : Json
  | arr (elements : List Json) : Json
  | obj (fields : List (String × Json)) : Json

/-- Truthiness of an optional query-parameter / environment string: JavaScript
`!x` is true exactly for a missing binding (`undefined`) or the empty string. -/
def jsTruthyS : Option String → Bool
  | none => false
  | some s => !(s == "")

/-- Characters JavaScript trims around numeric strings. -/
def isWsChar (c : Char) : Bool := c = ' ' || c = '\t' || c = '\n' || c = '\r'

/-- Trim whitespace from both ends of a character list. -/
def trimChars (cs : List Char) : List Char :=
  ((cs.dropWhile isWsChar).reverse.dropWhile isWsChar).reverse

/-- Read a maximal run of decimal digits: accumulated value, number of digits
read, and the remaining characters. -/
def readDigitsAux : ℕ → ℕ → List Char → ℕ × ℕ × List Char
  | acc, n, [] => (acc, n, [])
  | acc, n, c :: cs =>
    if c.isDigit then readDigitsAux (acc * 10 + (c.toNat - 48)) (n + 1) cs
    else (acc, n, c :: cs)

/-- Read a maximal digit run from the front of a character list. -/
def readDigits (cs : List Char) : ℕ × ℕ × List Char := readDigitsAux 0 0 cs

/-- Read an optional leading sign, returning the sign factor. -/
def readSign : List Char → ℚ × List Char
  | '-' :: cs => (-1, cs)
  | '+' :: cs => (1, cs)
  | cs => (1, cs)

/-- Read a decimal mantissa `digits`, `digits.digits`, `digits.` or `.digits`
(at least one digit in total), as JavaScript numeric literals allow. -/
def readMantissa (cs : List Char) : Option (ℚ × List Char) :=
  let r := readDigits cs
  match r.2.2 with
  | '.' :: r2 =>
    let rf := readDigits r2
    if r.2.1 + rf.2.1 = 0 then none
    else some ((r.1 : ℚ) + (rf.1 : ℚ) / (10 : ℚ) ^ rf.2.1, rf.2.2)
  | _ => if r.2.1 = 0 then none else some ((r.1 : ℚ), r.2.2)

/-- Read an optional exponent part `e±digits`; returns the multiplier.  A
present but malformed exponent yields `none`. -/
def readExponent : List Char → Option (ℚ × List Char)
  | [] => some (1, [])
  | c :: r1 =>
    if c = 'e' ∨ c = 'E' then
      let sr := readSign r1
      let er := readDigits sr.2
      if er.2.1 = 0 then none
      else some ((if sr.1 < 0 then 1 / (10 : ℚ) ^ er.1 else (10 : ℚ) ^ er.1), er.2.2)
    else some (1, c :: r1)

/-- JavaScript `Number(string)` on the decimal forms the upstream services and
query strings use: trimmed empty string is `0`; a signed decimal with optional
fraction and exponent parses exactly; anything else is `NaN` (`none`).
Hexadecimal literals and the `Infinity` spellings, which cannot occur in this
program's inputs, are mapped to `none`. -/
def jsStrToNum (s : String) : Option ℚ :=
  let t := trimChars s.data
  match t with
  | [] => some 0
  | _ :: _ =>
    let sr := readSign t
    match readMantissa sr.2 with
    | none => none
    | some (m, r1) =>
      match readExponent r1 with
      | none => none
      | some (ex, r2) => if r2 = [] then some (sr.1 * m * ex) else none

/-- JavaScript `parseFloat`: parse the longest numeric prefix after leading
whitespace; a malformed exponent is left unconsumed; no digits at all is
`NaN` (`none`). -/
def jsParseFloat (s : String) : Option ℚ :=
  let t := s.data.dropWhile isWsChar
  let sr := readSign t
  match readMantissa sr.2 with
  | none => none
  | some (m, r1) =>
    match readExponent r1 with
    | none => some (sr.1 * m)
    | some (ex, _) => some (sr.1 * m * ex)

/-- JavaScript `Number(v)` coercion for the JSON values the upstream services
can deliver (`null` is 0, booleans are 0/1, strings parse as decimals).
Array/object coercion via `toString`, which no modelled input exercises, is
conservatively `NaN`. -/
def jsToNumber : Json → Option ℚ
  | .null => some 0
  | .bool b => some (if b then 1 else 0)
  | .num q => some q
  | .str s => jsStrToNum s
  | .arr _ => none
  | .obj _ => none

/-- The program's `Number(val) || 0` idiom: `NaN` (and 0 itself) becomes 0. -/
def jsNumOrZero (v : Json) : ℚ := (jsToNumber v).getD 0

/-- Rounding to the nearest integer, ties away from zero, as
`Number.prototype.toFixed` rounds its last kept digit. -/
def jsRound (q : ℚ) : ℤ := if 0 ≤ q then ⌊q + 1 / 2⌋ else -⌊-q + 1 / 2⌋

/-- The program's `Number(x.toFixed(digits))`: round to `digits` decimal
places, reading the decimal string back as an exact number. -/
def toFixedNum (digits : ℕ) (q : ℚ) : ℚ :=
  (jsRound (q * (10 : ℚ) ^ digits) : ℚ) / (10 : ℚ) ^ digits

/-- Truncation toward zero, as JavaScript's `%` divides. -/
def ratTrunc (q : ℚ) : ℤ := if 0 ≤ q then ⌊q⌋ else ⌈q⌉

/-- JavaScript's remainder operator `a % n` on finite numbers: the remainder
of truncating division, carrying the sign of the dividend. -/
def jsMod (a n : ℚ) : ℚ := a - n * (ratTrunc (a / n) : ℚ)

/-- Digits of a character list read as a natural number; `none` when empty or
when any character is not a digit. -/
def digitsToNatAux (acc : ℕ) : List Char → Option ℕ
  | [] => some acc
  | c :: cs => if c.isDigit then digitsToNatAux (acc * 10 + (c.toNat - 48)) cs else none

/-- Strictly-digits reading of a nonempty character list. -/
def digitsToNat : List Char → Option ℕ
  | [] => none
  | c :: cs => digitsToNatAux 0 (c :: cs)

/-- Split a character list on `'-'` separators. -/
def splitOnDash : List Char → List (List Char)
  | [] => [[]]
  | c :: cs =>
    let r := splitOnDash cs
    if c = '-' then [] :: r
    else
      match r with
      | [] => [[c]]
      | g :: gs => (c :: g) :: gs

/-- Gregorian leap-year rule, as `Date` applies it. -/
def isLeapYear (y : ℕ) : Bool := y % 4 = 0 && (y % 100 != 0 || y % 400 = 0)

/-- Days in a month (1-based month number). -/
def daysInMonth (y m : ℕ) : ℕ :=
  if m = 2 then (if isLeapYear y then 29 else 28)
  else if m = 4 ∨ m = 6 ∨ m = 9 ∨ m = 11 then 30
  else 31

/-- The program's `new Date(s)` followed by `getMonth()`, for the `YYYY-MM-DD`
date strings the precipitation archive returns: the 0-based month when the
string is a valid ISO calendar date, `none` (an invalid date, skipped by the
aggregation) otherwise.  Other formats JavaScript's non-ISO fallback parser
might accept do not occur in this program's inputs and are `none` here. -/
def parseISOMonth (s : String) : Option ℕ :=
  match splitOnDash s.data with
  | [ys, ms, ds] =>
    match digitsToNat ys, digitsToNat ms, digitsToNat ds with
    | some y, some m, some d =>
      if ys.length = 4 ∧ ms.length = 2 ∧ ds.length = 2 ∧
          1 ≤ m ∧ m ≤ 12 ∧ 1 ≤ d ∧ d ≤ daysInMonth y m
      then some (m - 1) else none
    | _, _, _ => none
  | _ => none

/-- Query parameters, the `req.query` object: an association list of string
keys to string values (a key that is absent maps to `undefined`). -/
abbrev Query := List (String × String)

/-- What a route handler does with the Express response object: it either
writes a response (`res.status(code).json(body)`, status 200 when only
`res.json` is called) or lets an exception propagate to the dispatcher. -/
inductive HandlerStep : Type where
  | respond (status : ℕ) (body : Json) : HandlerStep
  | raise (message : String) : HandlerStep

/-- Outcome of an `await fetch(url)` / `r.ok` / `r.json()` sequence: the fetch
rejected, the response had a non-2xx status, or a payload was delivered. -/
inductive Fetched (α : Type) : Type where
  | netError (message : String) : Fetched α
  | httpError (status : ℕ) : Fetched α
  | ok (payload : α) : Fetched α

/-- Whether the upstream call failed (rejected fetch or non-ok status). -/
def Fetched.failed : Fetched α → Bool
  | .netError _ => true
  | .httpError _ => true
  | .ok _ => false

/-- The `{error: msg}` JSON bodies every error path produces. -/
def errorJson (msg : String) : Json := Json.obj [("error", Json.str msg)]

/-! ### Soil handler (`app.get('/soil')`) -/

/-- The `d?.values` object of a SoilGrids depth entry. -/
structure DepthValues where
  mean : Option Json

/-- One SoilGrids depth entry. -/
structure SoilDepth where
  values : Option DepthValues

/-- One SoilGrids layer: a name and its depth entries (`layer.depths`). -/
structure SoilLayer where
  name : String
  depths : Option (List SoilDepth)

/-- The `properties` object of a SoilGrids reply. -/
structure SoilProperties where
  layers : Option (List SoilLayer)

/-- A SoilGrids reply body, as far as the handler reads it. -/
structure SoilPayload where
  properties : Option SoilProperties
  layers : Option (List SoilLayer)

/-- The handler's `j?.properties?.layers || j?.layers || []` (note that an
empty array is truthy in JavaScript, so a present empty list is kept). -/
def soilLayers (j : SoilPayload) : List SoilLayer :=
  ((j.properties.bind (fun p => p.layers)).orElse (fun _ => j.layers)).getD []

/-- The handler's `byName`: `layers.find(l => l.name === name) || {}`; the
`{}` default is modelled as `none`. -/
def byName (j : SoilPayload) (nm : String) : Option SoilLayer :=
  (soilLayers j).find? (fun l => l.name == nm)

/-- The handler's `firstVal`: first depth's `values.mean`, rounded through
`Number(mean.toFixed(2))` when it is a number, `null` (`none`) when any link
of `depths?.[0]` / `values?.mean` is `undefined`.  A present non-number mean
(JSON `null`, a string, ...) makes `mean.toFixed` throw a `TypeError`, which
the surrounding `catch` turns into the mock fallback. -/
def firstVal : Option SoilLayer → Except String (Option ℚ)
  | none => .ok none
  | some l =>
    match (l.depths.getD []).head? with
    | none => .ok none
    | some d =>
      match d.values with
      | none => .ok none
      | some v =>
        match v.mean with
        | none => .ok none
        | some (Json.num q) => .ok (some (toFixedNum 2 q))
        | some _ => .error "mean.toFixed is not a function"

/-- JavaScript `x || default` on a number-or-null: `null`, `NaN` and 0 are
falsy, so the default also replaces a present value of 0. -/
def jsOrQ (v : Option ℚ) (d : ℚ) : ℚ :=
  match v with
  | some x => if x = 0 then d else x
  | none => d

/-- The soil handler's upstream-success response body (the object literal at
the end of the inner `try`), evaluated field by field in source order; an
error from any `firstVal` call aborts to the mock fallback. -/
def soilSuccessBody (j : SoilPayload) : Except String Json := do
  let ph ← firstVal (byName j "phh2o")
  let ni ← firstVal (byName j "nitrogen")
  let soc ← firstVal (byName j "soc")
  pure (Json.obj
    [("ph", Json.num (jsOrQ ph 6.5)),
     ("nitrogen", Json.num (jsOrQ ni 0.15)),
     ("organic_matter", Json.num (jsOrQ soc 1.5 * 1.724)),
     ("source", Json.str "soilgrids")])

/-- The numeric triple of the deterministic mock fallback:
`hash = Math.abs(Math.sin(lat*lon) * 10000)`, then
`(5.5 + hash % 3, 0.1 + (hash % 20) / 100, 1.0 + (hash % 30) / 10)`.
`sin` is an arbitrary model of `Math.sin`. -/
def soilMockVals (sin : ℚ → ℚ) (la lo : ℚ) : ℚ × ℚ × ℚ :=
  let hash := |sin (la * lo) * 10000|
  (5.5 + jsMod hash 3, 0.1 + jsMod hash 20 / 100, 1 + jsMod hash 30 / 10)

/-- The mock fallback's response body.  The query strings `lat`, `lon` are
coerced by the multiplication `lat*lon`; when either fails to parse the whole
hash chain is `NaN` and the serialized fields are `null`. -/
def soilMockBody (sin : ℚ → ℚ) (latS lonS : String) : Json :=
  match jsStrToNum latS, jsStrToNum lonS with
  | some la, some lo =>
    let v := soilMockVals sin la lo
    Json.obj
      [("ph", Json.num v.1),
       ("nitrogen", Json.num v.2.1),
       ("organic_matter", Json.num v.2.2),
       ("source", Json.str "mock")]
  | _, _ =>
    Json.obj
      [("ph", Json.null),
       ("nitrogen", Json.null),
       ("organic_matter", Json.null),
       ("source", Json.str "mock")]

/-- The `/soil` route handler.  Missing/empty `lat` or `lon` responds 400;
otherwise the inner `try` queries SoilGrids and projects the layers, and its
`catch` answers any upstream or projection error with the deterministic mock.
The outer `catch` (500 "Soil data fetch failed") guards code that cannot
throw once the inner catch absorbs the upstream path, so it is unreachable
in the model. -/
def soilHandler (sin : ℚ → ℚ) (q : Query) (fetched : Fetched SoilPayload) : HandlerStep :=
  let lat? := List.lookup "lat" q
  let lon? := List.lookup "lon" q
  if !(jsTruthyS lat?) || !(jsTruthyS lon?) then
    .respond 400 (errorJson "Missing lat/lon")
  else
    let latS := lat?.getD ""
    let lonS := lon?.getD ""
    let inner : Except String Json :=
      match fetched with
      | .netError m => .error m
      | .httpError s => .error ("SoilGrids error " ++ toString s)
      | .ok j => soilSuccessBody j
    match inner with
    | .ok body => .respond 200 body
    | .error _ => .respond 200 (soilMockBody sin latS lonS)

/-! ### Rain-history handler (`app.get('/rain-history')`) -/

/-- The `daily` object of an Open-Meteo archive reply: parallel arrays of
date strings and daily precipitation sums. -/
structure RainDaily where
  time : Option (List String)
  precipitation_sum : Option (List Json)

/-- An Open-Meteo archive reply body, as far as the handler reads it. -/
structure RainPayload where
  daily : Option RainDaily

/-- One iteration of the aggregation loop: parse `daily.time[i]` (skipping an
absent or unparseable date) and add `Number(val) || 0` into that date's
month bucket. -/
def addDay (monthly : List ℚ) (t? : Option String) (p : Json) : List ℚ :=
  match t? with
  | none => monthly
  | some t =>
    match parseISOMonth t with
    | none => monthly
    | some m => monthly.set m (monthly.getD m 0 + jsNumOrZero p)

/-- The `precip.forEach((val, i) => ...)` aggregation: fold the days into the
12 month buckets, indexing `time` in step with `precip`. -/
def monthlySums : List String → List Json → List ℚ → List ℚ
  | _, [], monthly => monthly
  | ts, p :: ps, monthly => monthlySums ts.tail ps (addDay monthly ts.head? p)

/-- The month labels, in output order. -/
def monthNames : List String :=
  ["Jan", "Feb", "Mar", "Apr", "May", "Jun", "Jul", "Aug", "Sep", "Oct", "Nov", "Dec"]

/-- The handler's `monthNames.map((name, i) => ({month: name, rainfall:
Number(monthly[i].toFixed(1))}))`. -/
def rainBody (sums : List ℚ) : Json :=
  Json.arr ((List.range 12).map (fun i =>
    Json.obj
      [("month", Json.str (monthNames.getD i "")),
       ("rainfall", Json.num (toFixedNum 1 (sums.getD i 0)))]))

/-- The `/rain-history` route handler.  Missing/empty `lat` or `lon` responds
400; any upstream failure is caught as 500 "Rain history fetch failed"; the
aggregation indexes `daily.time[i]`, so a missing `time` array with a
nonempty precipitation array throws a `TypeError` on the first iteration,
landing in the same catch. -/
def rainHistoryHandler (q : Query) (fetched : Fetched RainPayload) : HandlerStep :=
  if !(jsTruthyS (List.lookup "lat" q)) || !(jsTruthyS (List.lookup "lon" q)) then
    .respond 400 (errorJson "Missing lat/lon")
  else
    match fetched with
    | .netError _ => .respond 500 (errorJson "Rain history fetch failed")
    | .httpError _ => .respond 500 (errorJson "Rain history fetch failed")
    | .ok data =>
      let daily := data.daily.getD { time := none, precipitation_sum := none }
      let precip := daily.precipitation_sum.getD []
      match daily.time with
      | none =>
        match precip with
        | [] => .respond 200 (rainBody (monthlySums [] [] (List.replicate 12 0)))
        | _ :: _ => .respond 500 (errorJson "Rain history fetch failed")
      | some ts => .respond 200 (rainBody (monthlySums ts precip (List.replicate 12 0)))

/-! ### Geocode handler (`app.get('/geocode')`) -/

/-- One Nominatim match, as far as the handler reads it.  The JSON keys
`class` and `type` are Lean keywords; the handler itself renames `class` to
`placeClass` when destructuring, and `placeType` stands for `type`. -/
structure GeoItem where
  lat : String
  lon : String
  display_name : String
  placeClass : String
  placeType : String

/-- A number-or-NaN as serialized by `res.json` (NaN becomes `null`). -/
def numOrNull : Option ℚ → Json
  | some q => Json.num q
  | none => Json.null

/-- The `/geocode` route handler: 400 on a missing/empty `q`, 404 on an empty
result set, 500 "Geocoding failed" on any upstream failure, otherwise the
first match projected through `parseFloat`. -/
def geocodeHandler (q : Query) (fetched : Fetched (List GeoItem)) : HandlerStep :=
  if !(jsTruthyS (List.lookup "q" q)) then
    .respond 400 (errorJson "Missing query")
  else
    match fetched with
    | .netError _ => .respond 500 (errorJson "Geocoding failed")
    | .httpError _ => .respond 500 (errorJson "Geocoding failed")
    | .ok [] => .respond 404 (errorJson "Location not found")
    | .ok (g :: _) =>
      .respond 200 (Json.obj
        [("lat", numOrNull (jsParseFloat g.lat)),
         ("lon", numOrNull (jsParseFloat g.lon)),
         ("display_name", Json.str g.display_name),
         ("class", Json.str g.placeClass),
         ("type", Json.str g.placeType)])

/-! ### Weather handler (`app.get('/weather')`) -/

/-- The `main` object of an OpenWeather reply. -/
structure WeatherMain where
  temp : Json
  humidity : Json

/-- One entry of the `weather` array of an OpenWeather reply. -/
structure WeatherCond where
  description : Json

/-- The `wind` object of an OpenWeather reply. -/
structure WeatherWind where
  speed : Json

/-- An OpenWeather reply body, as far as the handler reads it; the objects the
handler dereferences (`data.main`, `data.weather`, `data.wind`) may be
absent, which makes the projection throw. -/
structure WeatherPayload where
  main : Option WeatherMain
  weather : Option (List WeatherCond)
  wind : Option WeatherWind
  name : Json

/-- The `/weather` route handler, paired with the number of outbound fetch
calls it performs.  Missing/empty `lat` or `lon` responds 400 before anything
else; a missing/empty `OPENWEATHER_API_KEY` responds 500 without fetching;
any upstream failure or projection `TypeError` is caught as 500 "Weather data
fetch failed". -/
def weatherHandler (apiKey : Option String) (q : Query) (fetched : Fetched WeatherPayload) :
    HandlerStep × ℕ :=
  if !(jsTruthyS (List.lookup "lat" q)) || !(jsTruthyS (List.lookup "lon" q)) then
    (.respond 400 (errorJson "Missing lat/lon"), 0)
  else if !(jsTruthyS apiKey) then
    (.respond 500 (errorJson "OpenWeather API key not configured"), 0)
  else
    match fetched with
    | .netError _ => (.respond 500 (errorJson "Weather data fetch failed"), 1)
    | .httpError _ => (.respond 500 (errorJson "Weather data fetch failed"), 1)
    | .ok d =>
      let proj : Except String Json := do
        let m ← match d.main with
          | some m => Except.ok m
          | none => Except.error "cannot read properties of undefined"
        let ws ← match d.weather with
          | some ws => Except.ok ws
          | none => Except.error "cannot read properties of undefined"
        let w0 ← match ws.head? with
          | some w => Except.ok w
          | none => Except.error "cannot read properties of undefined"
        let wd ← match d.wind with
          | some w => Except.ok w
          | none => Except.error "cannot read properties of undefined"
        pure (Json.obj
          [("temperature", m.temp),
           ("humidity", m.humidity),
           ("description", w0.description),
           ("wind_speed", wd.speed),
           ("location", d.name)])
      match proj with
      | .ok body => (.respond 200 body, 1)
      | .error _ => (.respond 500 (errorJson "Weather data fetch failed"), 1)

/-! ### JSON serialization (`JSON.stringify`) -/

/-- Escaping of one character inside a JSON string literal. -/
def escChar (c : Char) : String :=
  if c = '"' then "\\\""
  else if c = '\\' then "\\\\"
  else if c = '\n' then "\\n"
  else if c = '\r' then "\\r"
  else if c = '\t' then "\\t"
  else String.singleton c

/-- Escape a string for inclusion in JSON output. -/
def escapeJson (s : String) : String := String.join (s.data.map escChar)

/-- Decimal digits of a rational in `[0, 1)`, up to the given fuel; all the
numbers this program serializes terminate within a few digits. -/
def fracDigits : ℕ → ℚ → List Char
  | 0, _ => []
  | fuel + 1, q =>
    if q = 0 then []
    else
      let d := (⌊q * 10⌋).toNat
      Char.ofNat (48 + d) :: fracDigits fuel (q * 10 - (d : ℚ))

/-- Decimal rendering of a nonnegative rational, as `JSON.stringify` renders
a number (no trailing `.0` for integers). -/
def ratToDecNonneg (q : ℚ) : String :=
  let ip := (⌊q⌋).toNat
  let frac := fracDigits 20 (q - (ip : ℚ))
  if frac = [] then toString ip
  else toString ip ++ "." ++ String.mk frac

/-- Decimal rendering of a rational. -/
def ratToDec (q : ℚ) : String :=
  if q < 0 then "-" ++ ratToDecNonneg (-q) else ratToDecNonneg q

mutual

/-- `JSON.stringify` on the modelled JSON values (object keys in insertion
order, as the program constructs them). -/
def Json.stringify : Json → String
  | .null => "null"
  | .bool b => if b then "true" else "false"
  | .num q => ratToDec q
  | .str s => "\"" ++ escapeJson s ++ "\""
  | .arr xs => "[" ++ stringifyList xs ++ "]"
  | .obj kvs => "\x7b" ++ stringifyObj kvs ++ "\x7d"

/-- Comma-separated serialization of array elements. -/
def stringifyList : List Json → String
  | [] => ""
  | [x] => Json.stringify x
  | x :: y :: rest => Json.stringify x ++ "," ++ stringifyList (y :: rest)

/-- Comma-separated serialization of object fields. -/
def stringifyObj : List (String × Json) → String
  | [] => ""
  | [kv] => "\"" ++ escapeJson kv.1 ++ "\":" ++ Json.stringify kv.2
  | kv :: kv2 :: rest =>
    "\"" ++ escapeJson kv.1 ++ "\":" ++ Json.stringify kv.2 ++ "," ++ stringifyObj (kv2 :: rest)

end

/-! ### The exported Netlify adapter (`exports.handler`) -/

/-- The four proxy routes the adapter dispatches through `app._router.handle`. -/
inductive Route : Type where
  | soil : Route
  | rainHistory : Route
  | geocode : Route
  | weather : Route

/-- The abstract outcome of `app._router.handle(req, mockRes, reject)` for a
routed request: either a response recorded through the mock `res` callbacks
(with no error reaching the chain's final callback), or an error delivered to
that final `done` callback — the promise's `reject`. -/
abbrev Dispatch := Route → Query → HandlerStep

/-- What `app._router.handle({...req, url}, mockRes, reject)` actually does
for every routed request of this program: Express's router runs its built-in
`query` and `expressInit` middleware, then the app's `cors()` and
Cache-Control middleware (api.js lines 13-15), ahead of every route layer,
all against the adapter's mock `res`, which implements only `status`, `json`
and `send` (lines 196-200).  `expressInit` immediately calls
`res.setHeader('X-Powered-By', 'Express')`; the method is absent, so a
`TypeError: res.setHeader is not a function` is thrown, caught by Express's
layer, and funneled down the exhausted chain to the final `done` callback —
the promise's `reject` — before any of the four route handlers is reached
(the `cors()` and `res.set` middleware would throw the same way).  The
matched route handler is therefore never invoked by the adapter, whatever
the query and the upstream world. -/
def appRouterHandle : Dispatch := fun _ _ =>
  .raise "res.setHeader is not a function"

/-- A Netlify invocation event, as far as `exports.handler` reads it. -/
structure Event where
  path : String
  httpMethod : String
  queryStringParameters : Option Query

/-- The response envelope `{statusCode, headers, body}` the adapter returns. -/
structure NetlifyResponse where
  statusCode : ℕ
  headers : List (String × String)
  body : String

/-- The adapter's fixed `headers` object (lines 178-182 of the source): the
three permissive CORS headers and nothing else — in particular no
`Cache-Control`, which only the Express middleware sets on the Express
response object and which is never copied into this envelope. -/
def corsHeaders : List (String × String) :=
  [("Access-Control-Allow-Origin", "*"),
   ("Access-Control-Allow-Headers", "Content-Type"),
   ("Access-Control-Allow-Methods", "GET, POST, PUT, DELETE, OPTIONS")]

/-- If `pat` is a prefix of `s`, the remainder. -/
def stripAt : List Char → List Char → Option (List Char)
  | [], s => some s
  | _ :: _, [] => none
  | p :: ps, c :: cs => if p = c then stripAt ps cs else none

/-- Remove the first occurrence of `pat` from `s`, as JavaScript's
`s.replace(pat, '')` with a plain-string pattern. -/
def removeFirst (pat : List Char) : List Char → List Char
  | [] =>
    match stripAt pat [] with
    | some r => r
    | none => []
  | c :: cs =>
    match stripAt pat (c :: cs) with
    | some rest => rest
    | none => c :: removeFirst pat cs

/-- The function-route mount point stripped from the event path. -/
def functionPath : String := "/.netlify/functions/api"

/-- The adapter's `event.path.replace('/.netlify/functions/api', '')`. -/
def stripPath (p : String) : String :=
  String.mk (removeFirst functionPath.data p.data)

/-- Which of the four proxy routes a stripped path selects. -/
def routeOfPath (p : String) : Option Route :=
  if p = "/soil" then some Route.soil
  else if p = "/rain-history" then some Route.rainHistory
  else if p = "/geocode" then some Route.geocode
  else if p = "/weather" then some Route.weather
  else none

/-- The exported Netlify adapter, `exports.handler`, parametric in the
dispatch outcome.  `now` models `new Date().toISOString()` for the inline
`/health` branch.  For each of the four proxy routes the adapter awaits
`new Promise((resolve, reject) => app._router.handle(..., reject))`: an
error reaching `reject` settles the promise and is converted by the
adapter's `catch` into a 500 envelope carrying the error's message — with
the program's actual dispatch (`appRouterHandle`) this is the outcome of
every routed request, a middleware `TypeError` rejecting before any handler
runs.  A dispatch outcome that records a response with no error reaching
`reject` — a case no path of this program produces — would leave the promise
unsettled, since the executor never calls `resolve`; the adapter then never
returns, which the model renders as `none`. -/
def exportsHandler (dispatch : Dispatch) (now : String) (event : Event) :
    Option NetlifyResponse :=
  let path := stripPath event.path
  let q := event.queryStringParameters.getD []
  if event.httpMethod = "OPTIONS" then
    some ⟨200, corsHeaders, ""⟩
  else if path = "/health" then
    some ⟨200, corsHeaders,
      Json.stringify (Json.obj [("status", Json.str "ok"), ("timestamp", Json.str now)])⟩
  else
    match routeOfPath path with
    | some r =>
      match dispatch r q with
      | .raise msg => some ⟨500, corsHeaders, Json.stringify (errorJson msg)⟩
      | .respond _ _ => none
    | none => some ⟨404, corsHeaders, Json.stringify (errorJson "Not found")⟩

/-- Read a field of an entry of a responded JSON array (used to state facts
about the rain-history output). -/
def entryAt (step : HandlerStep) (i : ℕ) (key : String) : Option Json :=
  match step with
  | .respond _ (Json.arr es) =>
    match es[i]? with
    | some (Json.obj kvs) => List.lookup key kvs
    | _ => none
  | _ => none

/-! ### Helper lemmas -/

theorem jsMod_nonneg {a n : ℚ} (ha : 0 ≤ a) (hn : 0 < n) : 0 ≤ jsMod a n := by
  unfold jsMod ratTrunc
  rw [if_pos (div_nonneg ha hn.le)]
  have h := Int.floor_le (a / n)
  have h2 : n * ((⌊a / n⌋ : ℤ) : ℚ) ≤ n * (a / n) := by
    exact mul_le_mul_of_nonneg_left h hn.le
  have h3 : n * (a / n) = a := by field_simp
  linarith

theorem jsMod_lt {a n : ℚ} (ha : 0 ≤ a) (hn : 0 < n) : jsMod a n < n := by
  unfold jsMod ratTrunc
  rw [if_pos (div_nonneg ha hn.le)]
  have h := Int.lt_floor_add_one (a / n)
  have h2 : n * (a / n) < n * (((⌊a / n⌋ : ℤ) : ℚ) + 1) := by
    exact mul_lt_mul_of_pos_left h hn
  have h3 : n * (a / n) = a := by field_simp
  nlinarith

theorem toFixedNum_nonneg {q : ℚ} (d : ℕ) (hq : 0 ≤ q) : 0 ≤ toFixedNum d q := by
  unfold toFixedNum jsRound
  have hp : (0 : ℚ) < (10 : ℚ) ^ d := by positivity
  have hqd : 0 ≤ q * (10 : ℚ) ^ d := by positivity
  rw [if_pos hqd]
  have hfl : (0 : ℤ) ≤ ⌊q * (10 : ℚ) ^ d + 1 / 2⌋ := by
    apply Int.le_floor.mpr
    push_cast
    linarith
  have : (0 : ℚ) ≤ ((⌊q * (10 : ℚ) ^ d + 1 / 2⌋ : ℤ) : ℚ) := by exact_mod_cast hfl
  positivity

theorem set_getD_self : ∀ (l : List ℚ) (n : ℕ), l.set n (l.getD n 0) = l
  | [], _ => rfl
  | _ :: _, 0 => rfl
  | a :: t, n + 1 => congrArg (List.cons a) (set_getD_self t n)

theorem getD_nonneg : ∀ (l : List ℚ) (n : ℕ), (∀ x ∈ l, 0 ≤ x) → 0 ≤ l.getD n 0
  | [], _, _ => le_refl 0
  | a :: t, 0, h => h a (List.mem_cons_self a t)
  | a :: t, n + 1, h => getD_nonneg t n (fun x hx => h x (List.mem_cons_of_mem a hx))

theorem set_nonneg : ∀ (l : List ℚ) (n : ℕ) (v : ℚ),
    (∀ x ∈ l, 0 ≤ x) → 0 ≤ v → ∀ x ∈ l.set n v, 0 ≤ x
  | [], _, _, h, _ => by simp
  | a :: t, 0, v, h, hv => by
    intro x hx
    rcases List.mem_cons.mp hx with h1 | h2
    · exact h1 ▸ hv
    · exact h x (List.mem_cons_of_mem a h2)
  | a :: t, n + 1, v, h, hv => by
    intro x hx
    rcases List.mem_cons.mp hx with h1 | h2
    · exact h1 ▸ h a (List.mem_cons_self a t)
    · exact set_nonneg t n v (fun y hy => h y (List.mem_cons_of_mem a hy)) hv x h2

theorem addDay_nonneg {monthly : List ℚ} {t? : Option String} {p : Json}
    (h : ∀ x ∈ monthly, 0 ≤ x) (hp : 0 ≤ jsNumOrZero p) :
    ∀ x ∈ addDay monthly t? p, 0 ≤ x := by
  intro x hx
  unfold addDay at hx
  split at hx
  · exact h x hx
  · split at hx
    · exact h x hx
    · rename_i m _
      exact set_nonneg monthly m _ h (add_nonneg (getD_nonneg monthly m h) hp) x hx

theorem monthlySums_nonneg : ∀ (ts : List String) (ps : List Json) (acc : List ℚ),
    (∀ x ∈ acc, 0 ≤ x) → (∀ p ∈ ps, 0 ≤ jsNumOrZero p) →
    ∀ x ∈ monthlySums ts ps acc, 0 ≤ x
  | _, [], acc, hacc, _ => hacc
  | ts, p :: ps, acc, hacc, hps =>
    monthlySums_nonneg ts.tail ps (addDay acc ts.head? p)
      (addDay_nonneg hacc (hps p (List.mem_cons_self p ps)))
      (fun x hx => hps x (List.mem_cons_of_mem p hx))

theorem monthlySums_append (t : String) (p : Json) :
    ∀ (ts : List String) (ps : List Json) (acc : List ℚ), ts.length = ps.length →
      monthlySums (ts ++ [t]) (ps ++ [p]) acc = addDay (monthlySums ts ps acc) (some t) p
  | [], [], acc, _ => rfl
  | [], _ :: _, _, h => by simp at h
  | _ :: _, [], _, h => by simp at h
  | a :: as, b :: bs, acc, h => by
    have h' : as.length = bs.length := by simpa using h
    show monthlySums (as ++ [t]) (bs ++ [p]) (addDay acc (some a) b) = _
    rw [monthlySums_append t p as bs _ h']
    rfl

/-! ### Claim theorems -/

/-- C3: for every request to `/soil`, `/rain-history` or `/weather` in which
the query parameter `lat` or `lon` is missing, the handler responds with
status 400 and body `{error: "Missing lat/lon"}` (whatever the upstream
world would have answered); for every request to `/geocode` in which `q` is
missing, it responds 400 with `{error: "Missing query"}`. -/
theorem spec_c3_missing_params :
    (∀ (sin : ℚ → ℚ) (q : Query) (f : Fetched SoilPayload),
      List.lookup "lat" q = none ∨ List.lookup "lon" q = none →
      soilHandler sin q f = .respond 400 (errorJson "Missing lat/lon")) ∧
    (∀ (q : Query) (f : Fetched RainPayload),
      List.lookup "lat" q = none ∨ List.lookup "lon" q = none →
      rainHistoryHandler q f = .respond 400 (errorJson "Missing lat/lon")) ∧
    (∀ (key : Option String) (q : Query) (f : Fetched WeatherPayload),
      List.lookup "lat" q = none ∨ List.lookup "lon" q = none →
      (weatherHandler key q f).1 = .respond 400 (errorJson "Missing lat/lon")) ∧
    (∀ (q : Query) (f : Fetched (List GeoItem)),
      List.lookup "q" q = none →
      geocodeHandler q f = .respond 400 (errorJson "Missing query")) := by
  refine ⟨?_, ?_, ?_, ?_⟩
  · intro sin q f h
    rcases h with h | h <;> simp [soilHandler, h, jsTruthyS]
  · intro q f h
    rcases h with h | h <;> simp [rainHistoryHandler, h, jsTruthyS]
  · intro key q f h
    rcases h with h | h <;> simp [weatherHandler, h, jsTruthyS]
  · intro q f h
    simp [geocodeHandler, h, jsTruthyS]

/-- Witness for C3 at a concrete request: the empty query is missing all
parameters, and each handler answers 400. -/
theorem spec_c3_missing_params_witness :
    soilHandler (fun _ => 0) [] (.netError "down") =
      .respond 400 (errorJson "Missing lat/lon") ∧
    geocodeHandler [("lat", "1")] (.ok []) = .respond 400 (errorJson "Missing query") :=
  ⟨spec_c3_missing_params.1 (fun _ => 0) [] (.netError "down") (Or.inl rfl),
   spec_c3_missing_params.2.2.2 [("lat", "1")] (.ok []) rfl⟩

/-- C7: the soil mock fallback is deterministic and total.  Whenever the
upstream call fails (rejected fetch or non-2xx status), the handler responds
200 with exactly `soilMockBody sin lat lon` — pure arithmetic in the
coordinates, no further I/O — so two invocations with the same `lat` and
`lon` (under any failure reasons and any other query parameters) produce
identical `ph`, `nitrogen` and `organic_matter`, and the fallback never
fails. -/
theorem spec_c7_soil_mock_deterministic :
    ∀ (sin : ℚ → ℚ) (q q' : Query) (f f' : Fetched SoilPayload) (latS lonS : String),
      f.failed = true → f'.failed = true →
      List.lookup "lat" q = some latS → List.lookup "lon" q = some lonS →
      List.lookup "lat" q' = some latS → List.lookup "lon" q' = some lonS →
      latS ≠ "" → lonS ≠ "" →
      soilHandler sin q f = .respond 200 (soilMockBody sin latS lonS) ∧
      soilHandler sin q f = soilHandler sin q' f' := by
  have main : ∀ (sin : ℚ → ℚ) (q : Query) (f : Fetched SoilPayload) (latS lonS : String),
      f.failed = true →
      List.lookup "lat" q = some latS → List.lookup "lon" q = some lonS →
      latS ≠ "" → lonS ≠ "" →
      soilHandler sin q f = .respond 200 (soilMockBody sin latS lonS) := by
    intro sin q f latS lonS hf hlat hlon hlats hlons
    cases f with
    | netError m => simp [soilHandler, hlat, hlon, jsTruthyS, hlats, hlons]
    | httpError s => simp [soilHandler, hlat, hlon, jsTruthyS, hlats, hlons]
    | ok _ => simp [Fetched.failed] at hf
  intro sin q q' f f' latS lonS hf hf' hlat hlon hlat' hlon' hlats hlons
  have h1 := main sin q f latS lonS hf hlat hlon hlats hlons
  have h2 := main sin q' f' latS lonS hf' hlat' hlon' hlats hlons
  exact ⟨h1, h1.trans h2.symm⟩

/-- Witness for C7 at concrete coordinates and two different failure modes:
the two responses agree. -/
theorem spec_c7_soil_mock_deterministic_witness :
    soilHandler (fun _ => 0) [("lat", "1"), ("lon", "2")] (.netError "down") =
      .respond 200 (soilMockBody (fun _ => 0) "1" "2") ∧
    soilHandler (fun _ => 0) [("lat", "1"), ("lon", "2")] (.netError "down") =
      soilHandler (fun _ => 0) [("lon", "2"), ("lat", "1"), ("x", "y")] (.httpError 503) :=
  spec_c7_soil_mock_deterministic (fun _ => 0)
    [("lat", "1"), ("lon", "2")] [("lon", "2"), ("lat", "1"), ("x", "y")]
    (.netError "down") (.httpError 503) "1" "2"
    rfl rfl rfl rfl rfl rfl (by decide) (by decide)

/-- C8: for every `lat` and `lon` (and every model of `Math.sin`), the mock
fallback values derived as `hash = abs(sin(lat*lon) * 10000)`,
`ph = 5.5 + hash % 3`, `nitrogen = 0.1 + (hash % 20) / 100`,
`organic_matter = 1.0 + (hash % 30) / 10` satisfy `5.5 ≤ ph < 8.5`,
`0.1 ≤ nitrogen < 0.3` and `1.0 ≤ organic_matter < 4.0`. -/
theorem spec_c8_mock_bounds :
    ∀ (sin : ℚ → ℚ) (la lo : ℚ),
      5.5 ≤ (soilMockVals sin la lo).1 ∧ (soilMockVals sin la lo).1 < 8.5 ∧
      0.1 ≤ (soilMockVals sin la lo).2.1 ∧ (soilMockVals sin la lo).2.1 < 0.3 ∧
      1 ≤ (soilMockVals sin la lo).2.2 ∧ (soilMockVals sin la lo).2.2 < 4 := by
  intro sin la lo
  unfold soilMockVals
  have hh : 0 ≤ |sin (la * lo) * 10000| := abs_nonneg _
  have h3a := jsMod_nonneg hh (show (0:ℚ) < 3 by norm_num)
  have h3b := jsMod_lt hh (show (0:ℚ) < 3 by norm_num)
  have h20a := jsMod_nonneg hh (show (0:ℚ) < 20 by norm_num)
  have h20b := jsMod_lt hh (show (0:ℚ) < 20 by norm_num)
  have h30a := jsMod_nonneg hh (show (0:ℚ) < 30 by norm_num)
  have h30b := jsMod_lt hh (show (0:ℚ) < 30 by norm_num)
  refine ⟨by linarith, by linarith, by linarith, by linarith, by linarith, by linarith⟩

/-- C9: a `/weather` request with `lat` and `lon` supplied but no configured
`OPENWEATHER_API_KEY` is answered 500 with
`{error: "OpenWeather API key not configured"}`, and the handler performs no
outbound network call (the fetch count is 0), whatever the upstream would
have answered. -/
theorem spec_c9_weather_no_key :
    ∀ (q : Query) (f : Fetched WeatherPayload) (latS lonS : String),
      List.lookup "lat" q = some latS → latS ≠ "" →
      List.lookup "lon" q = some lonS → lonS ≠ "" →
      weatherHandler none q f =
        (.respond 500 (errorJson "OpenWeather API key not configured"), 0) := by
  intro q f latS lonS hlat hlats hlon hlons
  simp [weatherHandler, hlat, hlon, jsTruthyS, hlats, hlons]

/-- Witness for C9 at a concrete request. -/
theorem spec_c9_weather_no_key_witness :
    weatherHandler none [("lat", "1"), ("lon", "2")] (.ok ⟨none, none, none, Json.null⟩) =
      (.respond 500 (errorJson "OpenWeather API key not configured"), 0) :=
  spec_c9_weather_no_key [("lat", "1"), ("lon", "2")] (.ok ⟨none, none, none, Json.null⟩)
    "1" "2" rfl (by decide) rfl (by decide)

theorem entryAt_rainBody (sums : List ℚ) {i : ℕ} (hi : i < 12) :
    entryAt (.respond 200 (rainBody sums)) i "month" =
      some (Json.str (monthNames.getD i "")) ∧
    entryAt (.respond 200 (rainBody sums)) i "rainfall" =
      some (Json.num (toFixedNum 1 (sums.getD i 0))) := by
  simp only [entryAt, rainBody]
  rw [List.getElem?_map, List.getElem?_range hi]
  simp [List.lookup]

/-- C4 (amended): for every upstream daily-precipitation response (time and
precipitation arrays of any lengths, including empty and partial years,
which do not error), the rain-history output is an array of exactly 12
entries whose month labels are Jan..Dec in calendar order and whose rainfall
values are the monthly sums rounded to 1 decimal; every rainfall value is
nonnegative provided every upstream precipitation value coerces to a
nonnegative number.  (The unconditional nonnegativity the claim states fails:
a negative upstream value propagates, see the counterexample.) -/
theorem spec_c4_rain_shape :
    ∀ (q : Query) (latS lonS : String) (ts : List String) (ps : List Json),
      List.lookup "lat" q = some latS → latS ≠ "" →
      List.lookup "lon" q = some lonS → lonS ≠ "" →
      (∃ es : List Json,
        rainHistoryHandler q (.ok ⟨some ⟨some ts, some ps⟩⟩) =
          .respond 200 (Json.arr es) ∧ es.length = 12) ∧
      (∀ i : ℕ, i < 12 →
        entryAt (rainHistoryHandler q (.ok ⟨some ⟨some ts, some ps⟩⟩)) i "month" =
          some (Json.str (monthNames.getD i "")) ∧
        entryAt (rainHistoryHandler q (.ok ⟨some ⟨some ts, some ps⟩⟩)) i "rainfall" =
          some (Json.num (toFixedNum 1 ((monthlySums ts ps (List.replicate 12 0)).getD i 0)))) ∧
      ((∀ p ∈ ps, 0 ≤ jsNumOrZero p) →
        ∀ i : ℕ, 0 ≤ toFixedNum 1 ((monthlySums ts ps (List.replicate 12 0)).getD i 0)) := by
  intro q latS lonS ts ps hlat hlats hlon hlons
  have hstep : rainHistoryHandler q (.ok ⟨some ⟨some ts, some ps⟩⟩) =
      .respond 200 (rainBody (monthlySums ts ps (List.replicate 12 0))) := by
    simp [rainHistoryHandler, hlat, hlon, jsTruthyS, hlats, hlons]
  refine ⟨?_, ?_, ?_⟩
  · refine ⟨(List.range 12).map (fun i =>
      Json.obj
        [("month", Json.str (monthNames.getD i "")),
         ("rainfall", Json.num (toFixedNum 1 ((monthlySums ts ps (List.replicate 12 0)).getD i 0)))]),
      ?_, by simp⟩
    rw [hstep]
    rfl
  · intro i hi
    rw [hstep]
    exact entryAt_rainBody _ hi
  · intro hps i
    apply toFixedNum_nonneg
    apply getD_nonneg
    apply monthlySums_nonneg ts ps _ _ hps
    intro x hx
    rw [List.eq_of_mem_replicate hx]

/-- Witness for C4 at a concrete request with an empty upstream year: the
output still has all 12 months. -/
theorem spec_c4_rain_shape_witness :
    (∃ es : List Json,
      rainHistoryHandler [("lat", "1"), ("lon", "2")] (.ok ⟨some ⟨some [], some []⟩⟩) =
        .respond 200 (Json.arr es) ∧ es.length = 12) ∧
    (∀ i : ℕ, i < 12 →
      entryAt (rainHistoryHandler [("lat", "1"), ("lon", "2")]
          (.ok ⟨some ⟨some [], some []⟩⟩)) i "month" =
        some (Json.str (monthNames.getD i "")) ∧
      entryAt (rainHistoryHandler [("lat", "1"), ("lon", "2")]
          (.ok ⟨some ⟨some [], some []⟩⟩)) i "rainfall" =
        some (Json.num (toFixedNum 1 ((monthlySums [] [] (List.replicate 12 0)).getD i 0)))) ∧
    ((∀ p ∈ ([] : List Json), 0 ≤ jsNumOrZero p) →
      ∀ i : ℕ, 0 ≤ toFixedNum 1 ((monthlySums [] [] (List.replicate 12 0)).getD i 0)) :=
  spec_c4_rain_shape [("lat", "1"), ("lon", "2")] "1" "2" [] []
    rfl (by decide) rfl (by decide)

/-- Counterexample to C4 as stated: the aggregation has no nonnegativity
clamp, so a daily series whose single entry carries precipitation -5 yields
January rainfall -5 < 0 in a successful (status 200) response. -/
theorem spec_c4_counterexample :
    entryAt (rainHistoryHandler [("lat", "1"), ("lon", "2")]
        (.ok ⟨some ⟨some ["2023-01-01"], some [Json.num (-5)]⟩⟩)) 0 "rainfall" =
      some (Json.num (-5)) ∧ ¬ (0 ≤ (-5 : ℚ)) := by
  have hstep : rainHistoryHandler [("lat", "1"), ("lon", "2")]
      (.ok ⟨some ⟨some ["2023-01-01"], some [Json.num (-5)]⟩⟩) =
      .respond 200 (rainBody (monthlySums ["2023-01-01"] [Json.num (-5)]
        (List.replicate 12 0))) := by
    simp [rainHistoryHandler, jsTruthyS, List.lookup]
  have h1 : parseISOMonth "2023-01-01" = some 0 := rfl
  have hr : (List.replicate 12 (0 : ℚ)) = [0, 0, 0, 0, 0, 0, 0, 0, 0, 0, 0, 0] := rfl
  have hsums : monthlySums ["2023-01-01"] [Json.num (-5)] (List.replicate 12 0) =
      [-5, 0, 0, 0, 0, 0, 0, 0, 0, 0, 0, 0] := by
    norm_num [monthlySums, addDay, h1, hr, jsNumOrZero, jsToNumber]
  constructor
  · rw [hstep]
    rw [(entryAt_rainBody _ (show 0 < 12 by norm_num)).2, hsums]
    norm_num [toFixedNum, jsRound]
  · norm_num

/-- The concrete upstream daily series of the C5 aggregation example. -/
def rainExamplePayload : RainPayload :=
  ⟨some ⟨some ["2023-01-01", "2023-01-15"], some [Json.num 5, Json.num 3]⟩⟩

/-- C5: the aggregation adds each day's precipitation into its month's
bucket: on the upstream series
`[{time:"2023-01-01",precipitation_sum:5},{time:"2023-01-15",precipitation_sum:3}]`
the output value for Jan is 8.0 and every other month is 0.0; appending an
entry with an unparseable date leaves the monthly sums unchanged, as does
appending an entry whose precipitation coerces to zero (missing or
non-numeric values). -/
theorem spec_c5_aggregation :
    entryAt (rainHistoryHandler [("lat", "1"), ("lon", "2")] (.ok rainExamplePayload))
        0 "rainfall" = some (Json.num 8) ∧
    (∀ i : ℕ, 1 ≤ i → i < 12 →
      entryAt (rainHistoryHandler [("lat", "1"), ("lon", "2")] (.ok rainExamplePayload))
        i "rainfall" = some (Json.num 0)) ∧
    (∀ (ts : List String) (ps : List Json) (acc : List ℚ) (t : String) (p : Json),
      ts.length = ps.length → parseISOMonth t = none →
      monthlySums (ts ++ [t]) (ps ++ [p]) acc = monthlySums ts ps acc) ∧
    (∀ (ts : List String) (ps : List Json) (acc : List ℚ) (t : String) (p : Json),
      ts.length = ps.length → jsNumOrZero p = 0 →
      monthlySums (ts ++ [t]) (ps ++ [p]) acc = monthlySums ts ps acc) := by
  have hstep : rainHistoryHandler [("lat", "1"), ("lon", "2")] (.ok rainExamplePayload) =
      .respond 200 (rainBody (monthlySums ["2023-01-01", "2023-01-15"]
        [Json.num 5, Json.num 3] (List.replicate 12 0))) := by
    simp [rainHistoryHandler, rainExamplePayload, jsTruthyS, List.lookup]
  have h1 : parseISOMonth "2023-01-01" = some 0 := rfl
  have h2 : parseISOMonth "2023-01-15" = some 0 := rfl
  have hr : (List.replicate 12 (0 : ℚ)) = [0, 0, 0, 0, 0, 0, 0, 0, 0, 0, 0, 0] := rfl
  have hsums : monthlySums ["2023-01-01", "2023-01-15"] [Json.num 5, Json.num 3]
      (List.replicate 12 0) = [8, 0, 0, 0, 0, 0, 0, 0, 0, 0, 0, 0] := by
    norm_num [monthlySums, addDay, h1, h2, hr, jsNumOrZero, jsToNumber]
  refine ⟨?_, ?_, ?_, ?_⟩
  · rw [hstep, (entryAt_rainBody _ (show 0 < 12 by norm_num)).2, hsums]
    norm_num [toFixedNum, jsRound]
  · intro i h1i hi
    rw [hstep, (entryAt_rainBody _ hi).2, hsums]
    have hz : ([(8 : ℚ), 0, 0, 0, 0, 0, 0, 0, 0, 0, 0, 0].getD i 0) = 0 := by
      interval_cases i <;> rfl
    rw [hz]
    norm_num [toFixedNum, jsRound]
  · intro ts ps acc t p hlen hparse
    rw [monthlySums_append t p ts ps acc hlen]
    simp [addDay, hparse]
  · intro ts ps acc t p hlen hp
    rw [monthlySums_append t p ts ps acc hlen]
    simp only [addDay]
    cases hparse : parseISOMonth t with
    | none => simp [hparse]
    | some m =>
      simp only [hparse, hp, add_zero]
      exact set_getD_self _ m

/-- Witness for C5 at concrete inputs: appending a day with an unparseable
date, and a day whose precipitation is `null`, both leave the sums of a
one-day series unchanged. -/
theorem spec_c5_aggregation_witness :
    monthlySums (["2023-01-01"] ++ ["banana"]) ([Json.num 5] ++ [Json.num 7])
        (List.replicate 12 0) =
      monthlySums ["2023-01-01"] [Json.num 5] (List.replicate 12 0) ∧
    monthlySums (["2023-01-01"] ++ ["2023-02-01"]) ([Json.num 5] ++ [Json.null])
        (List.replicate 12 0) =
      monthlySums ["2023-01-01"] [Json.num 5] (List.replicate 12 0) :=
  ⟨spec_c5_aggregation.2.2.1 ["2023-01-01"] [Json.num 5] (List.replicate 12 0)
      "banana" (Json.num 7) rfl rfl,
   spec_c5_aggregation.2.2.2 ["2023-01-01"] [Json.num 5] (List.replicate 12 0)
      "2023-02-01" Json.null rfl rfl⟩

/-- C6 (amended): on the soil handler's upstream-success path the response is
200 with `source = "soilgrids"`, `ph` the first depth's `phh2o` mean rounded
to 2 decimals, `nitrogen` the `nitrogen` mean, and `organic_matter` the `soc`
mean times 1.724 — except that the defaults are applied through JavaScript's
`||`, which treats 0 as absent: `ph` equals the rounded mean only when that
rounded mean is nonzero, and equals 6.5 when the mean is absent or rounds to
0 (likewise `nitrogen`/0.15 and `soc`/1.5).  The claim's "including when it
is 0" fails, see the counterexample. -/
theorem spec_c6_soil_projection :
    ∀ (sin : ℚ → ℚ) (q : Query) (j : SoilPayload) (latS lonS : String)
      (ph ni soc : Option ℚ),
      List.lookup "lat" q = some latS → latS ≠ "" →
      List.lookup "lon" q = some lonS → lonS ≠ "" →
      firstVal (byName j "phh2o") = .ok ph →
      firstVal (byName j "nitrogen") = .ok ni →
      firstVal (byName j "soc") = .ok soc →
      soilHandler sin q (.ok j) = .respond 200 (Json.obj
        [("ph", Json.num (jsOrQ ph 6.5)),
         ("nitrogen", Json.num (jsOrQ ni 0.15)),
         ("organic_matter", Json.num (jsOrQ soc 1.5 * 1.724)),
         ("source", Json.str "soilgrids")]) ∧
      (∀ v : ℚ, ph = some v → v ≠ 0 → jsOrQ ph 6.5 = v) ∧
      (ph = none ∨ ph = some 0 → jsOrQ ph 6.5 = 6.5) ∧
      (∀ v : ℚ, ni = some v → v ≠ 0 → jsOrQ ni 0.15 = v) ∧
      (ni = none ∨ ni = some 0 → jsOrQ ni 0.15 = 0.15) ∧
      (∀ v : ℚ, soc = some v → v ≠ 0 → jsOrQ soc 1.5 * 1.724 = v * 1.724) ∧
      (soc = none ∨ soc = some 0 → jsOrQ soc 1.5 * 1.724 = 1.5 * 1.724) := by
  intro sin q j latS lonS ph ni soc hlat hlats hlon hlons hph hni hsoc
  refine ⟨?_, ?_, ?_, ?_, ?_, ?_, ?_⟩
  · simp [soilHandler, soilSuccessBody, hlat, hlon, jsTruthyS, hlats, hlons,
      hph, hni, hsoc, Except.instMonad, Except.bind, Except.pure]
  · intro v hv hv0
    rw [hv]
    simp [jsOrQ, hv0]
  · intro hv
    rcases hv with hv | hv <;> simp [hv, jsOrQ]
  · intro v hv hv0
    rw [hv]
    simp [jsOrQ, hv0]
  · intro hv
    rcases hv with hv | hv <;> simp [hv, jsOrQ]
  · intro v hv hv0
    rw [hv]
    simp [jsOrQ, hv0]
  · intro hv
    rcases hv with hv | hv <;> simp [hv, jsOrQ]

/-- Witness for C6 at a concrete upstream payload carrying no layers: all
three values default. -/
theorem spec_c6_soil_projection_witness :
    soilHandler (fun _ => 0) [("lat", "1"), ("lon", "2")] (.ok ⟨none, none⟩) =
      .respond 200 (Json.obj
        [("ph", Json.num (jsOrQ none 6.5)),
         ("nitrogen", Json.num (jsOrQ none 0.15)),
         ("organic_matter", Json.num (jsOrQ none 1.5 * 1.724)),
         ("source", Json.str "soilgrids")]) ∧
    (∀ v : ℚ, (none : Option ℚ) = some v → v ≠ 0 → jsOrQ none 6.5 = v) ∧
    ((none : Option ℚ) = none ∨ (none : Option ℚ) = some 0 → jsOrQ none 6.5 = 6.5) ∧
    (∀ v : ℚ, (none : Option ℚ) = some v → v ≠ 0 → jsOrQ none 0.15 = v) ∧
    ((none : Option ℚ) = none ∨ (none : Option ℚ) = some 0 → jsOrQ none 0.15 = 0.15) ∧
    (∀ v : ℚ, (none : Option ℚ) = some v → v ≠ 0 → jsOrQ none 1.5 * 1.724 = v * 1.724) ∧
    ((none : Option ℚ) = none ∨ (none : Option ℚ) = some 0 →
      jsOrQ none 1.5 * 1.724 = 1.5 * 1.724) :=
  spec_c6_soil_projection (fun _ => 0) [("lat", "1"), ("lon", "2")] ⟨none, none⟩
    "1" "2" none none none rfl (by decide) rfl (by decide) rfl rfl rfl

/-- The upstream payload of the C6 counterexample: a `phh2o` layer whose
first depth's mean is present and equal to 0. -/
def phZeroPayload : SoilPayload :=
  { properties := some
      { layers := some
          [{ name := "phh2o",
             depths := some [{ values := some { mean := some (Json.num 0) } }] }] },
    layers := none }

/-- Counterexample to C6 as stated: the `phh2o` mean is present and equal to
0, yet the response's `ph` is the default 6.5, not 0 — JavaScript's `||`
replaces a present falsy value. -/
theorem spec_c6_counterexample :
    firstVal (byName phZeroPayload "phh2o") = .ok (some 0) ∧
    soilHandler (fun _ => 0) [("lat", "1"), ("lon", "2")] (.ok phZeroPayload) =
      .respond 200 (Json.obj
        [("ph", Json.num 6.5),
         ("nitrogen", Json.num 0.15),
         ("organic_matter", Json.num 2.586),
         ("source", Json.str "soilgrids")]) ∧
    (6.5 : ℚ) ≠ 0 := by
  have hby : byName phZeroPayload "phh2o" =
      some { name := "phh2o",
             depths := some [{ values := some { mean := some (Json.num 0) } }] } := rfl
  have hby2 : byName phZeroPayload "nitrogen" = none := rfl
  have hby3 : byName phZeroPayload "soc" = none := rfl
  have hfix : toFixedNum 2 0 = 0 := by norm_num [toFixedNum, jsRound]
  have hph : firstVal (byName phZeroPayload "phh2o") = .ok (some 0) := by
    rw [hby]
    simp [firstVal, hfix]
  have hni : firstVal (byName phZeroPayload "nitrogen") = .ok none := by
    rw [hby2]
    rfl
  have hsoc : firstVal (byName phZeroPayload "soc") = .ok none := by
    rw [hby3]
    rfl
  refine ⟨hph, ?_, by norm_num⟩
  have hbody : soilSuccessBody phZeroPayload = .ok (Json.obj
      [("ph", Json.num 6.5),
       ("nitrogen", Json.num 0.15),
       ("organic_matter", Json.num 2.586),
       ("source", Json.str "soilgrids")]) := by
    simp only [soilSuccessBody, hph, hni, hsoc, Except.instMonad, Except.bind, Except.pure]
    norm_num [jsOrQ]
  simp [soilHandler, hbody, jsTruthyS, List.lookup]

/-- C1 (code bug): at the failing input — a GET event for
`/.netlify/functions/api/soil` with `lat=1&lon=2` and SoilGrids unreachable —
the adapter neither invokes the `/soil` route handler nor returns an envelope
carrying the handler's output.  First conjunct: the dispatch rejects every
routed request with the middleware `TypeError` (Express's `expressInit` calls
`res.setHeader` on the adapter's mock `res`, which lacks it) before any route
handler runs.  Second conjunct: the handler itself, invoked with an
Express-conformant `res` as the claim expects, runs to completion with
status 200 and the deterministic mock body.  Third conjunct: the adapter
instead returns the caught `TypeError` as a 500 envelope.  Fourth conjunct:
that envelope's status is not the handler's status, so the claimed
translation of the handler's output into `{statusCode, headers, body}` never
happens. -/
theorem spec_c1_adapter_never_runs_handler :
    appRouterHandle .soil [("lat", "1"), ("lon", "2")] =
      .raise "res.setHeader is not a function" ∧
    soilHandler (fun _ => 0) [("lat", "1"), ("lon", "2")] (.netError "fetch failed") =
      .respond 200 (soilMockBody (fun _ => 0) "1" "2") ∧
    exportsHandler appRouterHandle "2024-01-01T00:00:00.000Z"
      ⟨"/.netlify/functions/api/soil", "GET", some [("lat", "1"), ("lon", "2")]⟩ =
      some ⟨500, corsHeaders,
        Json.stringify (errorJson "res.setHeader is not a function")⟩ ∧
    (500 : ℕ) ≠ 200 :=
  ⟨rfl, rfl, rfl, by decide⟩

/-- C2: for every invocation event routed to one of the four proxy routes
and every behaviour of the dispatched handler, an exception reaching the
dispatch callback (`reject`) is caught by the adapter's `catch` and converted
into a 500 envelope whose body is `{error: <the exception's message>}`; the
adapter itself, a total function into an optional envelope, propagates no
exception. -/
theorem spec_c2_adapter_catches :
    ∀ (dispatch : Dispatch) (now : String) (ev : Event) (r : Route) (msg : String),
      ev.httpMethod ≠ "OPTIONS" →
      routeOfPath (stripPath ev.path) = some r →
      dispatch r (ev.queryStringParameters.getD []) = .raise msg →
      exportsHandler dispatch now ev =
        some ⟨500, corsHeaders, Json.stringify (errorJson msg)⟩ := by
  intro dispatch now ev r msg hm hr hd
  have hh : stripPath ev.path ≠ "/health" := by
    intro heq
    rw [heq] at hr
    simp [routeOfPath] at hr
  simp [exportsHandler, hm, hh, hr, hd]

/-- Witness for C2 at a concrete event and a dispatcher that raises. -/
theorem spec_c2_adapter_catches_witness :
    exportsHandler (fun _ _ => .raise "boom") "t" ⟨"/soil", "GET", none⟩ =
      some ⟨500, corsHeaders, Json.stringify (errorJson "boom")⟩ :=
  spec_c2_adapter_catches (fun _ _ => .raise "boom") "t" ⟨"/soil", "GET", none⟩
    .soil "boom" (by decide) rfl rfl

/-- C10 (amended): every envelope the exported adapter returns — success,
400, 404, 500 and the OPTIONS short-circuit alike — carries exactly the
adapter's fixed header object: the permissive CORS headers including
`Access-Control-Allow-Origin: *`.  No envelope carries `Cache-Control`: the
`no-store` header the claim asserts is set only on the Express response by
the middleware and is never copied into the adapter's envelope, see the
counterexample. -/
theorem spec_c10_headers :
    ∀ (dispatch : Dispatch) (now : String) (ev : Event) (resp : NetlifyResponse),
      exportsHandler dispatch now ev = some resp →
      resp.headers = corsHeaders ∧
      List.lookup "Access-Control-Allow-Origin" resp.headers = some "*" ∧
      List.lookup "Cache-Control" resp.headers = none := by
  intro dispatch now ev resp h
  have hh : resp.headers = corsHeaders := by
    simp only [exportsHandler] at h
    split at h
    · injection h with h2
      rw [← h2]
    · split at h
      · injection h with h2
        rw [← h2]
      · split at h
        · split at h
          · injection h with h2
            rw [← h2]
          · exact Option.noConfusion h
        · injection h with h2
          rw [← h2]
  exact ⟨hh, by rw [hh]; rfl, by rw [hh]; rfl⟩

/-- Witness for C10 at the OPTIONS short-circuit. -/
theorem spec_c10_headers_witness :
    NetlifyResponse.headers ⟨200, corsHeaders, ""⟩ = corsHeaders ∧
    List.lookup "Access-Control-Allow-Origin"
      (NetlifyResponse.headers ⟨200, corsHeaders, ""⟩) = some "*" ∧
    List.lookup "Cache-Control" (NetlifyResponse.headers ⟨200, corsHeaders, ""⟩) = none :=
  spec_c10_headers (fun _ _ => .raise "e") "t" ⟨"/x", "OPTIONS", none⟩
    ⟨200, corsHeaders, ""⟩ rfl

/-- Counterexample to C10 as stated: the OPTIONS short-circuit response (a
response the adapter certainly returns) carries only the three CORS headers;
its header list has no `Cache-Control` entry at all, so it does not carry
`Cache-Control: no-store`. -/
theorem spec_c10_counterexample :
    exportsHandler (fun _ _ => .raise "e") "t" ⟨"/x", "OPTIONS", none⟩ =
      some ⟨200, corsHeaders, ""⟩ ∧
    List.lookup "Cache-Control" corsHeaders = none :=
  ⟨rfl, rfl⟩

end WeatherProxy
